import Mathlib

/-!
Shallow embedding of the 3xui-shop VPN subscription service layer
(app/bot/services/vpn.py), the database-session middleware
(app/bot/middlewares/database.py) and the promocode input handler
(app/bot/routers/subscription/promocode_handler.py), together with
theorems checking the specification claims about them.

Machine integers are modelled as Int (Python integers are unbounded), and
fallible Python code (attribute access on None, transport errors from the
panel client) is modelled with Except.
-/

/-- Errors a modelled Python computation can raise. -/
inductive PyError where
  | attributeErrorNone
  | transportError
deriving DecidableEq, Repr

/-- Attribute access on a possibly-None Python value: reading an attribute
of None raises AttributeError, otherwise it projects the field. -/
def optAttr {α β : Type} (x : Option α) (f : α → β) : Except PyError β :=
  match x with
  | some v => Except.ok (f v)
  | none => Except.error PyError.attributeErrorNone

/-- Remote panel client record as used by vpn.py through the py3xui
client library: identity fields, the quota and usage counters in bytes and
the expiry timestamp in epoch milliseconds. Fields not touched by the
repository are omitted. -/
structure Client where
  email : String
  enable : Bool
  id : String
  sub_id : String
  flow : String
  limit_ip : Int
  total : Int
  total_gb : Int
  up : Int
  down : Int
  expiry_time : Int
  inbound_id : Int
deriving DecidableEq, Repr

/-- Derived per-client view assembled by get_client_data
(vpn.py lines 101-118). -/
structure ClientData where
  traffic_total : Int
  traffic_remaining : Int
  traffic_used : Int
  traffic_up : Int
  traffic_down : Int
  expiry_time : Int
deriving DecidableEq, Repr

/-- Pure core of VPNService.get_client_data (vpn.py lines 101-118): the
derivation of the view fields from a client record fetched from the
panel. -/
def get_client_data (c : Client) : ClientData :=
  let tt := c.total
  let pair : Int × Int :=
    if tt ≤ 0 then (-1, -1)
    else (tt, c.total - (c.up + c.down))
  let expiry_time : Int := if c.expiry_time = 0 then -1 else c.expiry_time
  let traffic_used := c.up + c.down
  { traffic_total := pair.1
    traffic_remaining := pair.2
    traffic_used := traffic_used
    traffic_up := c.up
    traffic_down := c.down
    expiry_time := expiry_time }

/-- VPNService.gb_to_bytes (vpn.py lines 210-221): gigabytes to bytes,
one GB being 1024 cubed bytes. -/
def gb_to_bytes (traffic_gb : Int) : Int :=
  traffic_gb * 1024 ^ 3

/-- VPNService.days_to_timestamp (vpn.py lines 223-235) at exact-integer
datetime semantics: the current clock value in epoch milliseconds is made
an explicit parameter now_ms, and adding a timedelta of a given number of
days adds days times 86400000 milliseconds. -/
def days_to_timestamp (now_ms : Int) (days : Int) : Int :=
  now_ms + days * 86400000

/-- VPNService.add_days_to_timestamp (vpn.py lines 237-250) at
exact-integer datetime semantics: converting the millisecond timestamp to
a UTC datetime, adding a timedelta of the given days and converting back
yields timestamp plus days times 86400000. The function
add_days_to_timestamp_fp below models the same source lines at CPython
float semantics, where this identity can fail by one millisecond. -/
def add_days_to_timestamp (timestamp : Int) (days : Int) : Int :=
  timestamp + days * 86400000

/-- Fuel-bounded search for the largest exponent e such that b times 2 to
the e is at most a, for b at most a. Fuel 128 covers every ratio below 2
to the 128. -/
def exp2leAux : Nat → Nat → Nat → Nat
  | 0, _, _ => 0
  | fuel + 1, a, b => if b * 2 ≤ a then exp2leAux fuel a (b * 2) + 1 else 0

/-- Fuel-bounded search for the least k such that a times 2 to the k
reaches b, for a below b. -/
def exp2ltAux : Nat → Nat → Nat → Nat
  | 0, _, _ => 0
  | fuel + 1, a, b => if b ≤ a then 0 else exp2ltAux fuel (a * 2) b + 1

/-- Round the fraction a over b to the nearest integer with ties to even,
the rounding rule of IEEE-754 binary64 arithmetic and of the Python round
builtin. -/
def rneFrac (a b : Nat) : Nat :=
  let q := a / b
  let r := a % b
  if 2 * r < b then q
  else if b < 2 * r then q + 1
  else if q % 2 = 0 then q else q + 1

/-- Round a nonnegative rational a over b to the nearest IEEE-754
binary64 value, returned as an exact rational pair of numerator and
denominator. The model covers the normal range; overflow and subnormal
inputs do not arise in the epoch arithmetic modelled here. -/
def roundDouble (a b : Nat) : Nat × Nat :=
  if a = 0 then (0, 1)
  else if b ≤ a then
    let e := exp2leAux 128 a b
    if e ≤ 52 then (rneFrac (a * 2 ^ (52 - e)) b, 2 ^ (52 - e))
    else (rneFrac a (b * 2 ^ (e - 52)) * 2 ^ (e - 52), 1)
  else
    let k := exp2ltAux 1200 a b
    (rneFrac (a * 2 ^ (52 + k)) b, 2 ^ (52 + k))

/-- VPNService.add_days_to_timestamp (vpn.py lines 237-250) at CPython
binary64 float semantics, for nonnegative inputs: the millisecond
timestamp is divided by 1000 with float division, datetime.fromtimestamp
splits the float with math.modf and rounds the fractional part times ten
to the six, itself a rounded float product, half-to-even to whole
microseconds, carrying a full second if that rounds up to ten to the six;
the timedelta addition is exact integer microsecond arithmetic;
datetime.timestamp divides the total microseconds by ten to the six with
float division; and the final value is the float product with 1000
truncated by int. -/
def add_days_to_timestamp_fp (timestamp days : Nat) : Nat :=
  let t := roundDouble timestamp 1000
  let sec := t.1 / t.2
  let fracn := t.1 % t.2
  let prod := roundDouble (fracn * 1000000) t.2
  let us0 := rneFrac prod.1 prod.2
  let secus := if 1000000 ≤ us0 then (sec + 1, us0 - 1000000) else (sec, us0)
  let totalUs := secus.1 * 1000000 + secus.2 + days * 86400000000
  let ts := roundDouble totalUs 1000000
  let ms := roundDouble (ts.1 * 1000) ts.2
  ms.1 / ms.2

/-- C1: get_client_data derives the traffic fields as specified: for
total not positive, traffic_total and traffic_remaining are the sentinel
-1 regardless of the usage counters; for positive total,
traffic_remaining is total minus the sum of up and down, unclamped; and
traffic_used is always up plus down. -/
theorem get_client_data_traffic_fields (c : Client) :
    (get_client_data c).traffic_used = c.up + c.down ∧
    (c.total ≤ 0 →
      (get_client_data c).traffic_total = -1 ∧
      (get_client_data c).traffic_remaining = -1) ∧
    (0 < c.total →
      (get_client_data c).traffic_remaining = c.total - (c.up + c.down)) := by
  refine ⟨rfl, ?_, ?_⟩
  · intro h
    simp [get_client_data, h]
  · intro h
    rw [get_client_data]
    simp only []
    rw [if_neg (by omega)]

/-- Witness for C1 at a concrete client: total 5, up 1, down 7 gives a
negative unclamped remainder of -3, and a concrete client with total 0
and nonzero counters still reports the -1 sentinels. -/
theorem get_client_data_traffic_fields_witness :
    (get_client_data
      { email := "42", enable := true, id := "u", sub_id := "u", flow := ""
        limit_ip := 3, total := 5, total_gb := 0, up := 1, down := 7
        expiry_time := 9, inbound_id := 7 }).traffic_remaining = 5 - (1 + 7) ∧
    (get_client_data
      { email := "42", enable := true, id := "u", sub_id := "u", flow := ""
        limit_ip := 3, total := 0, total_gb := 0, up := 1, down := 7
        expiry_time := 9, inbound_id := 7 }).traffic_total = -1 := by
  constructor
  · exact (get_client_data_traffic_fields _).2.2 (by decide)
  · exact ((get_client_data_traffic_fields _).2.1 (by decide)).1

/-- Local user row as stored by the database layer: the numeric Telegram
id, the generated vpn UUID string and the Telegram profile fields. -/
structure User where
  tg_id : Int
  vpn_id : String
  first_name : String
  username : Option String
deriving DecidableEq, Repr

/-- Modelled from the spec: the ORM User model is not under src/; per the
spec data model its identifier is tg_id, the numeric Telegram user id,
and vpn.py refers to the same identifier under the attribute name
user_id. -/
def User.user_id (u : User) : Int :=
  u.tg_id

/-- Database lookup User.get keyed by the numeric Telegram id. -/
def User.get (db : List User) (uid : Int) : Option User :=
  db.find? (fun u => u.tg_id == uid)

/-- Pure core of VPNService.update_client (vpn.py lines 154-171): from
the client fetched by get_by_email, the new quota and expiry are computed
under the two replace flags, then exactly the six fields id, expiry_time,
flow, limit_ip, sub_id and total_gb are reassigned on the fetched client
object. -/
def update_client_pure (now_ms : Int) (user : User) (client : Client)
    (traffic : Int) (duration : Int)
    (replace_traffic : Bool) (replace_duration : Bool) : Client :=
  let new_traffic_bytes :=
    if replace_traffic then gb_to_bytes traffic
    else client.total + gb_to_bytes traffic
  let new_expiry_time :=
    if replace_duration then days_to_timestamp now_ms duration
    else add_days_to_timestamp client.expiry_time duration
  { client with
    id := user.vpn_id
    expiry_time := new_expiry_time
    flow := "xtls-rprx-vision"
    limit_ip := 3
    sub_id := user.vpn_id
    total_gb := new_traffic_bytes }

/-- C2 amended: update_client computes the new quota and expiry under
the two independent flags exactly as claimed, and in the concrete
scenario of an existing client with total 5 GB and both counters at
1 GB, adding 5 GB and 10 days without replacement yields a quota of 10
times 1024 cubed bytes and an expiry of add_days_to_timestamp applied to
the old expiry and 10; that value is the old expiry plus 10 days at
exact-integer datetime semantics, but at the CPython float semantics of
the same source lines it is one millisecond less at specific old
expiries, as the final conjunct records at old expiry 541169507341. -/
theorem update_client_quota_expiry (now_ms : Int) (user : User)
    (client : Client) (traffic duration : Int)
    (replace_traffic replace_duration : Bool) :
    ((update_client_pure now_ms user client traffic duration
        replace_traffic replace_duration).total_gb =
      if replace_traffic then gb_to_bytes traffic
      else client.total + gb_to_bytes traffic) ∧
    ((update_client_pure now_ms user client traffic duration
        replace_traffic replace_duration).expiry_time =
      if replace_duration then days_to_timestamp now_ms duration
      else add_days_to_timestamp client.expiry_time duration) ∧
    (client.total = 5 * 1024 ^ 3 → client.up = 1 * 1024 ^ 3 →
      client.down = 1 * 1024 ^ 3 →
      (update_client_pure now_ms user client 5 10 false false).total_gb =
        10 * 1024 ^ 3 ∧
      (update_client_pure now_ms user client 5 10 false false).expiry_time =
        add_days_to_timestamp client.expiry_time 10) ∧
    add_days_to_timestamp_fp 541169507341 10 + 1 =
      541169507341 + 10 * 86400000 := by
  refine ⟨rfl, rfl, ?_, rfl⟩
  intro htotal hup hdown
  constructor
  · simp [update_client_pure, gb_to_bytes, htotal]
  · rfl

/-- Witness for C2 at a concrete client with total 5 GB and both usage
counters at 1 GB. -/
theorem update_client_quota_expiry_witness :
    (update_client_pure 0
      { tg_id := 42, vpn_id := "v", first_name := "a", username := none }
      { email := "42", enable := true, id := "u", sub_id := "u", flow := ""
        limit_ip := 3, total := 5 * 1024 ^ 3, total_gb := 5 * 1024 ^ 3
        up := 1 * 1024 ^ 3, down := 1 * 1024 ^ 3
        expiry_time := 1700000000000, inbound_id := 7 }
      5 10 false false).total_gb = 10 * 1024 ^ 3 ∧
    (update_client_pure 0
      { tg_id := 42, vpn_id := "v", first_name := "a", username := none }
      { email := "42", enable := true, id := "u", sub_id := "u", flow := ""
        limit_ip := 3, total := 5 * 1024 ^ 3, total_gb := 5 * 1024 ^ 3
        up := 1 * 1024 ^ 3, down := 1 * 1024 ^ 3
        expiry_time := 1700000000000, inbound_id := 7 }
      5 10 false false).expiry_time = 1700000000000 + 10 * 86400000 := by
  have h := (update_client_quota_expiry 0
    { tg_id := 42, vpn_id := "v", first_name := "a", username := none }
    { email := "42", enable := true, id := "u", sub_id := "u", flow := ""
      limit_ip := 3, total := 5 * 1024 ^ 3, total_gb := 5 * 1024 ^ 3
      up := 1 * 1024 ^ 3, down := 1 * 1024 ^ 3
      expiry_time := 1700000000000, inbound_id := 7 }
    5 10 false false).2.2.1 (by norm_num) (by norm_num) (by norm_num)
  exact h

/-- C2 counterexample: the Scenario-B expiry conclusion of the claim, an
expiry of exactly old expiry plus 10 days for every old expiry, fails on
the source at the concrete current expiry 541169507341: the value the
source computes on vpn.py line 164, add_days_to_timestamp of that expiry
and duration 10 at CPython binary64 float semantics, is 542033507340,
one millisecond short of 541169507341 plus 10 times 86400000, which is
542033507341. -/
theorem update_client_scenario_expiry_counterexample :
    add_days_to_timestamp_fp 541169507341 10 = 542033507340 ∧
    ¬ ((542033507340 : Nat) = 541169507341 + 10 * 86400000) := by
  exact ⟨rfl, by decide⟩

/-- C10 frame property: update_client rewrites exactly the six fields id,
sub_id, flow, limit_ip, expiry_time and total_gb on the fetched client,
and every other fetched field, including email, enable, up, down,
inbound_id and the read-side quota field total, is left unchanged, for
all traffic and duration arguments and both flags. -/
theorem update_client_frame (now_ms : Int) (user : User) (client : Client)
    (traffic duration : Int) (replace_traffic replace_duration : Bool) :
    (update_client_pure now_ms user client traffic duration
        replace_traffic replace_duration).id = user.vpn_id ∧
    (update_client_pure now_ms user client traffic duration
        replace_traffic replace_duration).sub_id = user.vpn_id ∧
    (update_client_pure now_ms user client traffic duration
        replace_traffic replace_duration).flow = "xtls-rprx-vision" ∧
    (update_client_pure now_ms user client traffic duration
        replace_traffic replace_duration).limit_ip = 3 ∧
    (update_client_pure now_ms user client traffic duration
        replace_traffic replace_duration).expiry_time =
      (if replace_duration then days_to_timestamp now_ms duration
       else add_days_to_timestamp client.expiry_time duration) ∧
    (update_client_pure now_ms user client traffic duration
        replace_traffic replace_duration).total_gb =
      (if replace_traffic then gb_to_bytes traffic
       else client.total + gb_to_bytes traffic) ∧
    (update_client_pure now_ms user client traffic duration
        replace_traffic replace_duration).email = client.email ∧
    (update_client_pure now_ms user client traffic duration
        replace_traffic replace_duration).enable = client.enable ∧
    (update_client_pure now_ms user client traffic duration
        replace_traffic replace_duration).up = client.up ∧
    (update_client_pure now_ms user client traffic duration
        replace_traffic replace_duration).down = client.down ∧
    (update_client_pure now_ms user client traffic duration
        replace_traffic replace_duration).inbound_id = client.inbound_id ∧
    (update_client_pure now_ms user client traffic duration
        replace_traffic replace_duration).total = client.total := by
  exact ⟨rfl, rfl, rfl, rfl, rfl, rfl, rfl, rfl, rfl, rfl, rfl, rfl⟩

/-- C3 amended: the expiry_time view field is -1 when the raw expiry is
0 and is the raw value passed through unchanged otherwise; consequently
the field is -1 exactly when the raw expiry is 0 or is itself -1, so the
claimed equivalence with raw expiry 0 alone does not hold. -/
theorem get_client_data_expiry_normalization (c : Client) :
    (c.expiry_time = 0 → (get_client_data c).expiry_time = -1) ∧
    (c.expiry_time ≠ 0 →
      (get_client_data c).expiry_time = c.expiry_time) ∧
    ((get_client_data c).expiry_time = -1 ↔
      (c.expiry_time = 0 ∨ c.expiry_time = -1)) := by
  refine ⟨?_, ?_, ?_⟩
  · intro h
    simp [get_client_data, h]
  · intro h
    simp [get_client_data, h]
  · by_cases h : c.expiry_time = 0
    · simp [get_client_data, h]
    · simp [get_client_data, h]

/-- Witness for the amended C3 at concrete clients with raw expiry 0 and
raw expiry 5. -/
theorem get_client_data_expiry_normalization_witness :
    (get_client_data
      { email := "42", enable := true, id := "u", sub_id := "u", flow := ""
        limit_ip := 3, total := 5, total_gb := 0, up := 1, down := 2
        expiry_time := 0, inbound_id := 7 }).expiry_time = -1 ∧
    (get_client_data
      { email := "42", enable := true, id := "u", sub_id := "u", flow := ""
        limit_ip := 3, total := 5, total_gb := 0, up := 1, down := 2
        expiry_time := 5, inbound_id := 7 }).expiry_time = 5 := by
  constructor
  · exact (get_client_data_expiry_normalization _).1 (by decide)
  · exact (get_client_data_expiry_normalization _).2.1 (by decide)

/-- C3 counterexample: for a client whose raw expiry is -1 the view field
is -1 while the raw expiry is not 0, refuting the claimed equivalence
between a -1 view field and a raw expiry of 0. -/
theorem get_client_data_expiry_iff_counterexample :
    (get_client_data
      { email := "42", enable := true, id := "u", sub_id := "u", flow := ""
        limit_ip := 3, total := 5, total_gb := 0, up := 1, down := 2
        expiry_time := -1, inbound_id := 7 }).expiry_time = -1 ∧
    ¬ ((-1 : Int) = 0) := by
  exact ⟨rfl, by decide⟩

/-- C8: the claimed identity fails on the source. At the CPython float
semantics of the datetime round trip, add_days_to_timestamp with
timestamp 1001 and days 0 returns 1000, one millisecond short of the
exact value 1001 that the exact-integer reading of the same lines, and
the claim, require. -/
theorem add_days_to_timestamp_float_off_by_one :
    add_days_to_timestamp_fp 1001 0 = 1000 ∧
    add_days_to_timestamp 1001 0 = 1001 := by
  exact ⟨rfl, rfl⟩

/-- State of the external 3XUI panel together with fault-injection flags
for the transport of each API method, so that single-attempt and
error-surfacing behaviour can be stated. -/
structure Panel where
  clients : List Client
  get_fails : Bool
  update_fails : Bool
  reset_fails : Bool
  add_fails : Bool
deriving DecidableEq, Repr

/-- Observable calls issued by the service layer: the four panel API
methods used by vpn.py plus the promocode consumption delegated to the
promocode service. -/
inductive PanelEvent where
  | consume_promocode (code : String)
  | get_by_email (email : String)
  | update (clientId : String)
  | reset_stats (inboundId : Int) (email : String)
  | add (inboundId : Int) (clients : List Client)
deriving DecidableEq, Repr

/-- Panel lookup by the email field, the stringified Telegram id. -/
def Panel.findByEmail (p : Panel) (email : String) : Option Client :=
  p.clients.find? (fun c => c.email == email)

/-- Effect of a successful panel update call keyed by client id. -/
def Panel.applyUpdate (p : Panel) (c : Client) : Panel :=
  { p with clients := p.clients.map (fun x => if x.id = c.id then c else x) }

/-- Effect of a successful reset_stats call: usage counters of the
addressed client return to zero. -/
def Panel.applyResetStats (p : Panel) (email : String) : Panel :=
  { p with clients := (p.clients.map
      (fun x => if x.email = email then { x with up := 0, down := 0 } else x)) }

/-- Effect of a successful add call: the new clients join the panel. -/
def Panel.applyAdd (p : Panel) (cs : List Client) : Panel :=
  { p with clients := p.clients ++ cs }

/-- Result of one run of a mutating service method: the panel calls it
issued, the resulting panel state, and what the Python caller observes,
either the returned value or a propagated exception. -/
structure MutResult where
  trace : List PanelEvent
  panel : Panel
  result : Except PyError Unit
deriving Repr

/-- VPNService.update_client (vpn.py lines 125-177) as a run over the
panel: inside the try block the client is fetched by get_by_email, the
new quota and expiry are computed, the six fields are rewritten and one
update call and one reset_stats call are issued. Any exception, a
transport error on any call as well as the attribute error raised when
the fetch returns None, is caught by the except block, logged, and the
function returns None, so the caller always observes a normal return. -/
def update_client_run (p : Panel) (now_ms : Int) (user : User)
    (traffic duration : Int)
    (replace_traffic replace_duration : Bool) : MutResult :=
  let email := toString user.user_id
  let ev := PanelEvent.get_by_email email
  if p.get_fails then
    { trace := [ev], panel := p, result := Except.ok () }
  else
    match p.findByEmail email with
    | none =>
        { trace := [ev], panel := p, result := Except.ok () }
    | some client =>
        let c := update_client_pure now_ms user client traffic duration
          replace_traffic replace_duration
        let evu := PanelEvent.update c.id
        if p.update_fails then
          { trace := [ev, evu], panel := p, result := Except.ok () }
        else
          let evr := PanelEvent.reset_stats c.inbound_id c.email
          if p.reset_fails then
            { trace := [ev, evu, evr], panel := p.applyUpdate c
              result := Except.ok () }
          else
            { trace := [ev, evu, evr]
              panel := (p.applyUpdate c).applyResetStats c.email
              result := Except.ok () }

/-- VPNService.create_client (vpn.py lines 179-208) as a run over the
panel: the new client record is built from the user and the converted
grant values, and a single add call on the hardcoded inbound 7 is issued
inside the try block; a transport failure is caught and logged and the
function returns None. Fields of the py3xui client not set by the
constructor call keep their library defaults of zero. -/
def create_client_run (p : Panel) (now_ms : Int) (user : User)
    (traffic duration : Int) : MutResult :=
  let new_client : Client :=
    { email := toString user.user_id
      enable := true
      id := user.vpn_id
      expiry_time := days_to_timestamp now_ms duration
      flow := "xtls-rprx-vision"
      limit_ip := 3
      sub_id := user.vpn_id
      total_gb := gb_to_bytes traffic
      total := 0
      up := 0
      down := 0
      inbound_id := 0 }
  let inbound_id : Int := 7
  let ev := PanelEvent.add inbound_id [new_client]
  if p.add_fails then
    { trace := [ev], panel := p, result := Except.ok () }
  else
    { trace := [ev], panel := p.applyAdd [new_client]
      result := Except.ok () }

/-- VPNService.is_client_exists (vpn.py lines 65-81): a bare get_by_email
with no try block, so a transport failure propagates to the caller. -/
def is_client_exists_run (p : Panel) (user_id : Int) :
    List PanelEvent × Except PyError (Option Client) :=
  let ev := PanelEvent.get_by_email (toString user_id)
  if p.get_fails then ([ev], Except.error PyError.transportError)
  else ([ev], Except.ok (p.findByEmail (toString user_id)))

/-- Promocode row: unique code, grant amounts and the one-shot activation
flag. -/
structure Promocode where
  code : String
  traffic : Int
  duration : Int
  is_activated : Bool
deriving DecidableEq, Repr

/-- Database lookup Promocode.get keyed by the code string. -/
def Promocode.get (db : List Promocode) (code : String) : Option Promocode :=
  db.find? (fun pr => pr.code == code)

/-- Result of one run of VPNService.activate_promocode: the issued calls
in order, the final panel state, the final state of the promocode row and
what the caller observes. -/
structure ActivateResult where
  trace : List PanelEvent
  panel : Panel
  promocode : Promocode
  result : Except PyError Unit
deriving Repr

/-- VPNService.activate_promocode (vpn.py lines 285-300). The first step
delegates to the promocode service, whose module is not under src/;
modelled from the spec: it marks the promocode consumed by setting
is_activated. Then the user row is fetched, is_client_exists queries the
panel (uncaught, so a transport failure propagates after the consumption)
and the run dispatches to update_client or create_client with the grant
amounts of the promocode. When the user row is missing, update_client and
create_client read user.user_id in their opening log line outside any try
block, so the attribute error on None propagates. -/
def activate_promocode_run (p : Panel) (db : List User) (now_ms : Int)
    (user_id : Int) (promocode : Promocode) : ActivateResult :=
  let consumed := { promocode with is_activated := true }
  let user? := User.get db user_id
  let rest : List PanelEvent × Panel × Except PyError Unit :=
    match is_client_exists_run p user_id with
    | (ev1, Except.error e) => (ev1, p, Except.error e)
    | (ev1, Except.ok (some _)) =>
        match user? with
        | none => (ev1, p, Except.error PyError.attributeErrorNone)
        | some u =>
            let m := update_client_run p now_ms u promocode.traffic
              promocode.duration false false
            (ev1 ++ m.trace, m.panel, m.result)
    | (ev1, Except.ok none) =>
        match user? with
        | none => (ev1, p, Except.error PyError.attributeErrorNone)
        | some u =>
            let m := create_client_run p now_ms u promocode.traffic
              promocode.duration
            (ev1 ++ m.trace, m.panel, m.result)
  { trace := PanelEvent.consume_promocode promocode.code :: rest.1
    panel := rest.2.1
    promocode := consumed
    result := rest.2.2 }

/-- Rendered outcome of the promocode input handler. -/
inductive PromoHandlerOutcome where
  | activated_success
  | activate_failed
  | activate_invalid
deriving DecidableEq, Repr

/-- handle_promocode_input (promocode_handler.py lines 34-64): the entered
code is looked up; when a promocode is found and not yet activated, the
VPN service activate_promocode is invoked, with its success value a
parameter here since the services container is built outside src/, and
the success or failure message is rendered; otherwise the invalid message
is rendered and the VPN service is not invoked. The second component
records whether vpn.activate_promocode was invoked. -/
def handle_promocode_input (promocodes : List Promocode)
    (vpn_activate_ok : Bool) (input_promocode : String) :
    PromoHandlerOutcome × Bool :=
  match Promocode.get promocodes input_promocode with
  | some promocode =>
      if !promocode.is_activated then
        if vpn_activate_ok then (PromoHandlerOutcome.activated_success, true)
        else (PromoHandlerOutcome.activate_failed, true)
      else (PromoHandlerOutcome.activate_invalid, false)
  | none => (PromoHandlerOutcome.activate_invalid, false)

/-- Telegram profile attached to an incoming update. -/
structure TelegramUser where
  id : Int
  is_bot : Bool
  first_name : String
  username : Option String
deriving DecidableEq, Repr

/-- Database row creation User.create: builds the row and appends it to
the table. -/
def User.create (db : List User) (tg_id : Int) (vpn_id : String)
    (first_name : String) (username : Option String) : User × List User :=
  let u : User :=
    { tg_id := tg_id, vpn_id := vpn_id
      first_name := first_name, username := username }
  (u, db ++ [u])

/-- DBSessionMiddleware.__call__ (database.py lines 20-48): when the event
carries a non-bot Telegram user, the row is looked up by tg_id; on a hit
the row is passed to the handler unchanged. In the miss branch the source
reads the keyword arguments tg_id, first_name and username from the local
variable user, which at that point holds the None result of User.get
rather than telegram_user, so each of these attribute reads raises; the
model mirrors that with optAttr on the lookup result. The fresh UUID that
the source would generate is the fresh_vpn_id parameter. The value
returned is the user placed into the handler data, or none when the event
has no usable Telegram user, together with the user table after the
call. -/
def dbSessionMiddleware (db : List User) (fresh_vpn_id : String)
    (event_from_user : Option TelegramUser) :
    Except PyError (Option User × List User) :=
  match event_from_user with
  | some telegram_user =>
      if !telegram_user.is_bot then
        let user := User.get db telegram_user.id
        match user with
        | some u => Except.ok (some u, db)
        | none => do
            let tgid ← optAttr user (fun r => r.tg_id)
            let first_name ← optAttr user (fun r => r.first_name)
            let username ← optAttr user (fun r => r.username)
            let created := User.create db tgid fresh_vpn_id first_name username
            Except.ok (some created.1, created.2)
      else Except.ok (none, db)
  | none => Except.ok (none, db)

/-- VPNService.get_key (vpn.py lines 252-267): fetches the user row by id
and renders the f-string joining the configured subscription base URL and
the user vpn_id with nothing in between; the attribute access on a
missing user raises. -/
def get_key (subscription : String) (db : List User) (user_id : Int) :
    Except PyError String := do
  let user := User.get db user_id
  let vid ← optAttr user (fun u => u.vpn_id)
  return subscription ++ vid

/-- Recognizer for get_by_email calls in a trace. -/
def isGetByEmailCall : PanelEvent → Bool
  | PanelEvent.get_by_email _ => true
  | _ => false

/-- Recognizer for update calls in a trace. -/
def isUpdateCall : PanelEvent → Bool
  | PanelEvent.update _ => true
  | _ => false

/-- Recognizer for reset_stats calls in a trace. -/
def isResetStatsCall : PanelEvent → Bool
  | PanelEvent.reset_stats _ _ => true
  | _ => false

/-- Recognizer for add calls in a trace. -/
def isAddCall : PanelEvent → Bool
  | PanelEvent.add _ _ => true
  | _ => false

/-- C4 amended: every panel call made by update_client and create_client
is issued at most once per run, with no automatic retry; but a failing
call is caught and logged inside the service, both functions return None
either way, so the caller observes the same normal return after a failed
mutation as after a successful one and cannot distinguish them. -/
theorem panel_calls_single_attempt_and_swallowed (p : Panel) (now_ms : Int)
    (user : User) (traffic duration : Int)
    (replace_traffic replace_duration : Bool) :
    ((update_client_run p now_ms user traffic duration
        replace_traffic replace_duration).trace.countP isGetByEmailCall ≤ 1 ∧
     (update_client_run p now_ms user traffic duration
        replace_traffic replace_duration).trace.countP isUpdateCall ≤ 1 ∧
     (update_client_run p now_ms user traffic duration
        replace_traffic replace_duration).trace.countP isResetStatsCall ≤ 1 ∧
     (update_client_run p now_ms user traffic duration
        replace_traffic replace_duration).result = Except.ok ()) ∧
    ((create_client_run p now_ms user traffic duration).trace.countP
        isAddCall ≤ 1 ∧
     (create_client_run p now_ms user traffic duration).result =
        Except.ok ()) := by
  constructor
  · unfold update_client_run
    by_cases hg : p.get_fails
    · simp [hg, isGetByEmailCall, isUpdateCall, isResetStatsCall]
    · cases hfind : p.findByEmail (toString user.user_id) <;>
        by_cases hu : p.update_fails <;> by_cases hr : p.reset_fails <;>
        simp [hg, hfind, hu, hr, isGetByEmailCall, isUpdateCall,
          isResetStatsCall]
  · unfold create_client_run
    by_cases ha : p.add_fails <;> simp [ha, isAddCall]

/-- C4 counterexample: with a concrete panel holding the client of the
user, a run of update_client whose panel update call fails returns the
very same value as a run against an identical panel whose update call
succeeds, while the two resulting panel states differ, so the failure of
the mutation is not surfaced to the caller. -/
theorem update_failure_not_surfaced_counterexample :
    (update_client_run
      { clients := [{ email := "42", enable := true, id := "vpn-42"
                      sub_id := "vpn-42", flow := "", limit_ip := 1
                      total := 0, total_gb := 0, up := 0, down := 0
                      expiry_time := 0, inbound_id := 7 }]
        get_fails := false, update_fails := true, reset_fails := false
        add_fails := false }
      0 { tg_id := 42, vpn_id := "vpn-42", first_name := "a"
          username := none }
      1 1 false false).result =
    (update_client_run
      { clients := [{ email := "42", enable := true, id := "vpn-42"
                      sub_id := "vpn-42", flow := "", limit_ip := 1
                      total := 0, total_gb := 0, up := 0, down := 0
                      expiry_time := 0, inbound_id := 7 }]
        get_fails := false, update_fails := false, reset_fails := false
        add_fails := false }
      0 { tg_id := 42, vpn_id := "vpn-42", first_name := "a"
          username := none }
      1 1 false false).result ∧
    (update_client_run
      { clients := [{ email := "42", enable := true, id := "vpn-42"
                      sub_id := "vpn-42", flow := "", limit_ip := 1
                      total := 0, total_gb := 0, up := 0, down := 0
                      expiry_time := 0, inbound_id := 7 }]
        get_fails := false, update_fails := true, reset_fails := false
        add_fails := false }
      0 { tg_id := 42, vpn_id := "vpn-42", first_name := "a"
          username := none }
      1 1 false false).panel ≠
    (update_client_run
      { clients := [{ email := "42", enable := true, id := "vpn-42"
                      sub_id := "vpn-42", flow := "", limit_ip := 1
                      total := 0, total_gb := 0, up := 0, down := 0
                      expiry_time := 0, inbound_id := 7 }]
        get_fails := false, update_fails := false, reset_fails := false
        add_fails := false }
      0 { tg_id := 42, vpn_id := "vpn-42", first_name := "a"
          username := none }
      1 1 false false).panel := by
  constructor
  · rfl
  · decide

/-- Helper: no run of update_client ever issues a promocode consumption
call. -/
theorem update_client_run_trace_no_consume (p : Panel) (now_ms : Int)
    (u : User) (t d : Int) (rt rd : Bool) (code : String) :
    PanelEvent.consume_promocode code ∉
      (update_client_run p now_ms u t d rt rd).trace := by
  unfold update_client_run
  by_cases hg : p.get_fails
  · simp [hg]
  · cases hfind : p.findByEmail (toString u.user_id) <;>
      by_cases hu : p.update_fails <;> by_cases hr : p.reset_fails <;>
      simp [hg, hfind, hu, hr]

/-- Helper: no run of create_client ever issues a promocode consumption
call. -/
theorem create_client_run_trace_no_consume (p : Panel) (now_ms : Int)
    (u : User) (t d : Int) (code : String) :
    PanelEvent.consume_promocode code ∉
      (create_client_run p now_ms u t d).trace := by
  unfold create_client_run
  by_cases ha : p.add_fails <;> simp [ha]

/-- Helper: when the panel update call fails, a run of update_client
leaves the panel unchanged. -/
theorem update_client_run_panel_update_fails (p : Panel) (now_ms : Int)
    (u : User) (t d : Int) (rt rd : Bool) (h : p.update_fails = true) :
    (update_client_run p now_ms u t d rt rd).panel = p := by
  unfold update_client_run
  by_cases hg : p.get_fails
  · simp [hg]
  · cases hfind : p.findByEmail (toString u.user_id) <;> simp [hg, hfind, h]

/-- Helper: when the panel add call fails, a run of create_client leaves
the panel unchanged. -/
theorem create_client_run_panel_add_fails (p : Panel) (now_ms : Int)
    (u : User) (t d : Int) (h : p.add_fails = true) :
    (create_client_run p now_ms u t d).panel = p := by
  unfold create_client_run
  simp [h]

/-- C6: in every run of activate_promocode, the promocode consumption is
the first issued call and is never issued again, so it precedes every
panel mutation; the final promocode row is consumed unconditionally, and
when the panel mutation calls fail, the panel is left unchanged, that is,
the promocode ends spent with no subscription granted and no compensating
action. -/
theorem promocode_consumed_before_panel_mutation (p : Panel)
    (db : List User) (now_ms : Int) (user_id : Int)
    (promocode : Promocode) :
    (∃ rest, (activate_promocode_run p db now_ms user_id promocode).trace =
        PanelEvent.consume_promocode promocode.code :: rest ∧
        PanelEvent.consume_promocode promocode.code ∉ rest) ∧
    (activate_promocode_run p db now_ms user_id
        promocode).promocode.is_activated = true ∧
    (p.update_fails = true → p.add_fails = true →
      (activate_promocode_run p db now_ms user_id promocode).panel = p) := by
  refine ⟨⟨_, rfl, ?_⟩, rfl, ?_⟩
  · unfold is_client_exists_run
    by_cases hg : p.get_fails
    · simp [hg]
    · cases hfind : p.findByEmail (toString user_id) <;>
        cases huser : User.get db user_id <;>
        simp [hg, hfind, huser, update_client_run_trace_no_consume,
          create_client_run_trace_no_consume]
  · intro hu ha
    unfold activate_promocode_run is_client_exists_run
    by_cases hg : p.get_fails
    · simp [hg]
    · cases hfind : p.findByEmail (toString user_id) <;>
        cases huser : User.get db user_id <;>
        simp [hg, hfind, huser, update_client_run_panel_update_fails,
          create_client_run_panel_add_fails, hu, ha]

/-- Witness for C6 at a concrete run whose update and add calls both
fail: the promocode ends consumed and the panel is unchanged. -/
theorem promocode_consumed_before_panel_mutation_witness :
    (activate_promocode_run
      { clients := [], get_fails := false, update_fails := true
        reset_fails := false, add_fails := true }
      [{ tg_id := 42, vpn_id := "vpn-42", first_name := "a"
         username := none }]
      0 42
      { code := "SUMMER", traffic := 5, duration := 10
        is_activated := false }).promocode.is_activated = true ∧
    (activate_promocode_run
      { clients := [], get_fails := false, update_fails := true
        reset_fails := false, add_fails := true }
      [{ tg_id := 42, vpn_id := "vpn-42", first_name := "a"
         username := none }]
      0 42
      { code := "SUMMER", traffic := 5, duration := 10
        is_activated := false }).panel =
      { clients := [], get_fails := false, update_fails := true
        reset_fails := false, add_fails := true } := by
  have h := promocode_consumed_before_panel_mutation
    { clients := [], get_fails := false, update_fails := true
      reset_fails := false, add_fails := true }
    [{ tg_id := 42, vpn_id := "vpn-42", first_name := "a"
       username := none }]
    0 42
    { code := "SUMMER", traffic := 5, duration := 10
      is_activated := false }
  exact ⟨h.2.1, h.2.2 rfl rfl⟩

/-- C7: whenever the entered code has no promocode row, or the found
promocode is already activated, the handler renders the invalid or
already-used outcome and the VPN service activate_promocode is not
invoked, so no panel call is made. -/
theorem promocode_invalid_no_vpn_call (promocodes : List Promocode)
    (vpn_activate_ok : Bool) (input_promocode : String)
    (h : Promocode.get promocodes input_promocode = none ∨
      ∃ pr, Promocode.get promocodes input_promocode = some pr ∧
        pr.is_activated = true) :
    handle_promocode_input promocodes vpn_activate_ok input_promocode =
      (PromoHandlerOutcome.activate_invalid, false) := by
  rcases h with h | ⟨pr, hpr, hact⟩
  · simp [handle_promocode_input, h]
  · simp [handle_promocode_input, hpr, hact]

/-- Witness for C7 at a concrete table holding one already-activated
promocode: entering that code and entering a missing code both yield the
invalid outcome with no VPN service invocation. -/
theorem promocode_invalid_no_vpn_call_witness :
    handle_promocode_input
      [{ code := "USED", traffic := 1, duration := 1
         is_activated := true }] true "USED" =
      (PromoHandlerOutcome.activate_invalid, false) ∧
    handle_promocode_input
      [{ code := "USED", traffic := 1, duration := 1
         is_activated := true }] true "MISSING" =
      (PromoHandlerOutcome.activate_invalid, false) := by
  constructor
  · exact promocode_invalid_no_vpn_call _ _ _
      (Or.inr ⟨{ code := "USED", traffic := 1, duration := 1
                 is_activated := true }, rfl, rfl⟩)
  · exact promocode_invalid_no_vpn_call _ _ _ (Or.inl rfl)

/-- C5: evaluating the middleware at the failing input, the first contact
of the non-bot Telegram user 12345 over an empty user table, raises
AttributeError instead of creating the row, because the source reads the
creation arguments from the None lookup result; on a later contact with
the row present, the existing row is fetched and returned unchanged. -/
theorem middleware_first_contact_crash :
    dbSessionMiddleware [] "fresh-uuid"
      (some { id := 12345, is_bot := false, first_name := "Alice"
              username := some "alicetg" }) =
      Except.error PyError.attributeErrorNone ∧
    dbSessionMiddleware
      [{ tg_id := 12345, vpn_id := "old-uuid", first_name := "Alice"
         username := some "alicetg" }]
      "fresh-uuid"
      (some { id := 12345, is_bot := false, first_name := "Alice"
              username := some "alicetg" }) =
      Except.ok
        (some { tg_id := 12345, vpn_id := "old-uuid", first_name := "Alice"
                username := some "alicetg" },
         [{ tg_id := 12345, vpn_id := "old-uuid", first_name := "Alice"
            username := some "alicetg" }]) := by
  exact ⟨rfl, rfl⟩

/-- C9: for every user with a row in the table, get_key returns exactly
the configured subscription base URL concatenated with the vpn_id of the
user, with no separator inserted between them. -/
theorem get_key_concatenation (subscription : String) (db : List User)
    (user_id : Int) (u : User) (h : User.get db user_id = some u) :
    get_key subscription db user_id =
      Except.ok (subscription ++ u.vpn_id) := by
  simp [get_key, optAttr, h]

/-- Witness for C9 at a concrete table and base URL. -/
theorem get_key_concatenation_witness :
    get_key "https://sub.example/user/"
      [{ tg_id := 42, vpn_id := "vpn-42", first_name := "a"
         username := none }] 42 =
      Except.ok "https://sub.example/user/vpn-42" := by
  have h := get_key_concatenation "https://sub.example/user/"
    [{ tg_id := 42, vpn_id := "vpn-42", first_name := "a"
       username := none }] 42
    { tg_id := 42, vpn_id := "vpn-42", first_name := "a"
      username := none } rfl
  exact h
